import Mathlib

/-!
Verification of the IQBS logistics bot against its specification.

The definitions below are shallow embeddings of the Python source:
Python floats are modelled as rationals, Python dicts keyed by project id
as total functions from ℕ defaulting to a zero record, and the mutable
vehicle configuration as an explicit state value threaded through the
fuel operations.
-/

/-! ## Fuel model (src/fuel_controller.py, src/settings.py) -/

/-- One vehicle's entry in the settings store
(`settings.json` vehicle dict, see src/settings.py). -/
structure VehicleConfig where
  fuel_consumption_per_100km : ℚ
  tank_capacity : ℚ
  current_fuel_level : ℚ
  total_fuel_cost_in_tank : ℚ
deriving DecidableEq

/-- `FuelController.calculate_fuel_consumption` (src/fuel_controller.py:16-24)
for a known vehicle: `(distance_km / 100) * consumption_per_100km`. -/
def calculate_fuel_consumption (cfg : VehicleConfig) (distance_km : ℚ) : ℚ :=
  distance_km / 100 * cfg.fuel_consumption_per_100km

/-- `FuelController.calculate_average_fuel_price_per_liter`
(src/fuel_controller.py:26-38) for a known vehicle. -/
def calculate_average_fuel_price_per_liter (cfg : VehicleConfig) : ℚ :=
  if cfg.current_fuel_level ≤ 0 then 0
  else cfg.total_fuel_cost_in_tank / cfg.current_fuel_level

/-- Outcome dictionary of `update_fuel_after_trip` (src/fuel_controller.py:40-94):
either one of the early-return dictionaries, or the full result record. -/
inductive FuelTripResult where
  | trackingDisabled
  | vehicleNotFound
  | noFuel
  | ok (fuel_before fuel_after cost_before cost_after consumed trip_cost avg_price : ℚ)
deriving DecidableEq

/-- The `fuel_after_liters` field of a trip result, when present. -/
def FuelTripResult.fuelAfter : FuelTripResult → Option ℚ
  | .ok _ fuel_after _ _ _ _ _ => some fuel_after
  | _ => none

/-- `FuelController.update_fuel_after_trip` (src/fuel_controller.py:40-94).
The settings lookup is modelled by an `Option VehicleConfig` argument and the
global `enable_fuel_tracking` flag by `tracking_enabled`; the function returns
the updated stored vehicle state together with the result dictionary.
The tracking check precedes the vehicle lookup, exactly as in the source. -/
def update_fuel_after_trip (tracking_enabled : Bool) (veh : Option VehicleConfig)
    (distance_km : ℚ) : Option VehicleConfig × FuelTripResult :=
  if tracking_enabled = false then (veh, .trackingDisabled)
  else
    match veh with
    | none => (none, .vehicleNotFound)
    | some cfg =>
      if cfg.current_fuel_level ≤ 0 then (some cfg, .noFuel)
      else
        let average_price_per_liter := calculate_average_fuel_price_per_liter cfg
        let fuel_consumed_liters := calculate_fuel_consumption cfg distance_km
        let trip_fuel_cost := fuel_consumed_liters * average_price_per_liter
        let new_fuel_level := max 0 (cfg.current_fuel_level - fuel_consumed_liters)
        let new_total_cost := max 0 (cfg.total_fuel_cost_in_tank - trip_fuel_cost)
        (some { cfg with
                  current_fuel_level := new_fuel_level,
                  total_fuel_cost_in_tank := new_total_cost },
         .ok cfg.current_fuel_level new_fuel_level cfg.total_fuel_cost_in_tank
           new_total_cost fuel_consumed_liters trip_fuel_cost average_price_per_liter)

/-- Outcome of `update_fuel_after_refuel` (src/fuel_controller.py:96-135). -/
inductive FuelRefuelResult where
  | vehicleNotFound
  | ok (fuel_before fuel_after cost_before cost_after : ℚ)
deriving DecidableEq

/-- `FuelController.update_fuel_after_refuel` (src/fuel_controller.py:96-135).
Note that the source performs no tracking-enabled check here. -/
def update_fuel_after_refuel (veh : Option VehicleConfig)
    (liters_added refuel_cost : ℚ) : Option VehicleConfig × FuelRefuelResult :=
  match veh with
  | none => (none, .vehicleNotFound)
  | some cfg =>
    let new_fuel_level := min cfg.tank_capacity (cfg.current_fuel_level + liters_added)
    let new_total_cost := cfg.total_fuel_cost_in_tank + refuel_cost
    (some { cfg with
              current_fuel_level := new_fuel_level,
              total_fuel_cost_in_tank := new_total_cost },
     .ok cfg.current_fuel_level new_fuel_level cfg.total_fuel_cost_in_tank new_total_cost)

/-- A call into the fuel controller: a completed trip or a refuel. -/
inductive FuelOp where
  | trip (distance_km : ℚ)
  | refuel (liters_added refuel_cost : ℚ)

/-- The trip distance or refuel liters argument is nonnegative, as guaranteed
by the numeric-input validation (> 0) of the bot before these calls. -/
def FuelOp.nonnegB : FuelOp → Bool
  | .trip d => 0 ≤ d
  | .refuel l _ => 0 ≤ l

/-- Apply a sequence of fuel-controller calls to a stored vehicle state,
keeping only the evolving state. -/
def applyFuelOps (tracking_enabled : Bool) (veh : Option VehicleConfig)
    (ops : List FuelOp) : Option VehicleConfig :=
  ops.foldl
    (fun v op =>
      match op with
      | .trip d => (update_fuel_after_trip tracking_enabled v d).1
      | .refuel l c => (update_fuel_after_refuel v l c).1)
    veh

/-- Blended average price of the stored vehicle state (0 when unknown). -/
def vehicleAveragePrice : Option VehicleConfig → ℚ
  | some cfg => calculate_average_fuel_price_per_liter cfg
  | none => 0

/-! ## Fuel model: helper lemmas -/

/-- A single trip call preserves the fuel bounds when its distance is
nonnegative and the vehicle record is well formed. -/
theorem trip_preserves_bounds (enabled : Bool) (cfg : VehicleConfig) (d : ℚ)
    (hr : 0 ≤ cfg.fuel_consumption_per_100km)
    (h0 : 0 ≤ cfg.current_fuel_level) (h1 : cfg.current_fuel_level ≤ cfg.tank_capacity)
    (hd : 0 ≤ d) :
    ∀ cfg', (update_fuel_after_trip enabled (some cfg) d).1 = some cfg' →
      0 ≤ cfg'.fuel_consumption_per_100km ∧
      0 ≤ cfg'.current_fuel_level ∧ cfg'.current_fuel_level ≤ cfg'.tank_capacity := by
  intro cfg' h
  unfold update_fuel_after_trip at h
  by_cases he : enabled = false
  · simp [he] at h
    subst h
    exact ⟨hr, h0, h1⟩
  · simp [he] at h
    by_cases hf : cfg.current_fuel_level ≤ 0
    · simp [hf] at h
      subst h
      exact ⟨hr, h0, h1⟩
    · simp [hf] at h
      subst h
      refine ⟨hr, le_max_left _ _, ?_⟩
      have hcons : 0 ≤ calculate_fuel_consumption cfg d := by
        unfold calculate_fuel_consumption
        positivity
      have hcap : (0 : ℚ) ≤ cfg.tank_capacity := le_trans h0 h1
      simp only [max_le_iff]
      constructor
      · exact hcap
      · linarith

/-- A single refuel call preserves the fuel bounds when the added liters are
nonnegative and the vehicle record is well formed. -/
theorem refuel_preserves_bounds (cfg : VehicleConfig) (l c : ℚ)
    (hr : 0 ≤ cfg.fuel_consumption_per_100km)
    (h0 : 0 ≤ cfg.current_fuel_level) (h1 : cfg.current_fuel_level ≤ cfg.tank_capacity)
    (hl : 0 ≤ l) :
    ∀ cfg', (update_fuel_after_refuel (some cfg) l c).1 = some cfg' →
      0 ≤ cfg'.fuel_consumption_per_100km ∧
      0 ≤ cfg'.current_fuel_level ∧ cfg'.current_fuel_level ≤ cfg'.tank_capacity := by
  intro cfg' h
  unfold update_fuel_after_refuel at h
  simp at h
  subst h
  have hcap : (0 : ℚ) ≤ cfg.tank_capacity := le_trans h0 h1
  refine ⟨hr, ?_, min_le_left _ _⟩
  simp only [le_min_iff]
  exact ⟨hcap, by linarith⟩

/-- The stored state after a trip call on a known vehicle is always `some`. -/
theorem update_fuel_after_trip_some (enabled : Bool) (cfg : VehicleConfig) (d : ℚ) :
    ∃ cfg1, (update_fuel_after_trip enabled (some cfg) d).1 = some cfg1 := by
  unfold update_fuel_after_trip
  by_cases he : enabled = false
  · exact ⟨cfg, by simp [he]⟩
  · by_cases hf : cfg.current_fuel_level ≤ 0
    · exact ⟨cfg, by simp [he, hf]⟩
    · exact ⟨{ cfg with
          current_fuel_level :=
            max 0 (cfg.current_fuel_level - calculate_fuel_consumption cfg d),
          total_fuel_cost_in_tank :=
            max 0 (cfg.total_fuel_cost_in_tank -
              calculate_fuel_consumption cfg d * calculate_average_fuel_price_per_liter cfg) },
        by simp [he, hf]⟩

/-- Folding any nonnegative operation list from a well-formed state keeps the
state well formed. -/
theorem applyFuelOps_preserves_bounds (enabled : Bool) (ops : List FuelOp) :
    ∀ cfg : VehicleConfig,
      0 ≤ cfg.fuel_consumption_per_100km →
      0 ≤ cfg.current_fuel_level → cfg.current_fuel_level ≤ cfg.tank_capacity →
      (ops.all FuelOp.nonnegB = true) →
      ∀ cfg', applyFuelOps enabled (some cfg) ops = some cfg' →
        0 ≤ cfg'.fuel_consumption_per_100km ∧
        0 ≤ cfg'.current_fuel_level ∧ cfg'.current_fuel_level ≤ cfg'.tank_capacity := by
  induction ops with
  | nil =>
    intro cfg hr h0 h1 _ cfg' h
    simp [applyFuelOps] at h
    subst h
    exact ⟨hr, h0, h1⟩
  | cons op rest ih =>
    intro cfg hr h0 h1 hall cfg' h
    simp [List.all_cons] at hall
    obtain ⟨hop, hrest⟩ := hall
    match op with
    | .trip d =>
      have hd : (0 : ℚ) ≤ d := by simpa [FuelOp.nonnegB] using hop
      simp only [applyFuelOps, List.foldl_cons] at h
      obtain ⟨cfg1, hcfg1⟩ := update_fuel_after_trip_some enabled cfg d
      have hb := trip_preserves_bounds enabled cfg d hr h0 h1 hd cfg1 hcfg1
      rw [hcfg1] at h
      exact ih cfg1 hb.1 hb.2.1 hb.2.2 (by simpa using hrest) cfg' h
    | .refuel l c =>
      have hl : (0 : ℚ) ≤ l := by simpa [FuelOp.nonnegB] using hop
      simp only [applyFuelOps, List.foldl_cons] at h
      have hcfg1 : (update_fuel_after_refuel (some cfg) l c).1 = some { cfg with
          current_fuel_level := min cfg.tank_capacity (cfg.current_fuel_level + l),
          total_fuel_cost_in_tank := cfg.total_fuel_cost_in_tank + c } := by
        simp [update_fuel_after_refuel]
      have hb := refuel_preserves_bounds cfg l c hr h0 h1 hl _ hcfg1
      rw [hcfg1] at h
      exact ih _ hb.1 hb.2.1 hb.2.2 (by simpa using hrest) cfg' h

/-! ## Fuel model: claim theorems -/

/-- Claim C3: starting from a vehicle whose consumption rate is nonnegative and
whose fuel level lies in `[0, tank_capacity]`, any finite sequence of
`update_fuel_after_trip` / `update_fuel_after_refuel` calls (with the
nonnegative distance/liters arguments the bot's input validation guarantees)
keeps `current_fuel_level` within `[0, tank_capacity]`. -/
theorem fuel_level_always_in_bounds (enabled : Bool) (cfg : VehicleConfig)
    (ops : List FuelOp)
    (hr : 0 ≤ cfg.fuel_consumption_per_100km)
    (h0 : 0 ≤ cfg.current_fuel_level) (h1 : cfg.current_fuel_level ≤ cfg.tank_capacity)
    (hops : ops.all FuelOp.nonnegB = true) :
    ∀ cfg', applyFuelOps enabled (some cfg) ops = some cfg' →
      0 ≤ cfg'.current_fuel_level ∧ cfg'.current_fuel_level ≤ cfg'.tank_capacity := by
  intro cfg' h
  exact (applyFuelOps_preserves_bounds enabled ops cfg hr h0 h1 hops cfg' h).2

/-- Default vehicle A of the settings file: 8.5 L/100km, 60 L tank,
45 L in tank worth 2250. -/
def vehicleA : VehicleConfig :=
  { fuel_consumption_per_100km := 17/2, tank_capacity := 60,
    current_fuel_level := 45, total_fuel_cost_in_tank := 2250 }

/-- State of vehicle A after a 100 km trip followed by a 10 L refuel for 500. -/
def vehicleAAfterOps : VehicleConfig :=
  { fuel_consumption_per_100km := 17/2, tank_capacity := 60,
    current_fuel_level := 93/2, total_fuel_cost_in_tank := 2325 }

/-- Witness for C3 on vehicle A with a concrete trip and refuel. -/
theorem fuel_level_always_in_bounds_witness :
    (0 ≤ vehicleA.fuel_consumption_per_100km ∧
     0 ≤ vehicleA.current_fuel_level ∧ vehicleA.current_fuel_level ≤ vehicleA.tank_capacity ∧
     ([FuelOp.trip 100, FuelOp.refuel 10 500].all FuelOp.nonnegB = true) ∧
     applyFuelOps true (some vehicleA) [FuelOp.trip 100, FuelOp.refuel 10 500] =
       some vehicleAAfterOps) ∧
    (0 ≤ vehicleAAfterOps.current_fuel_level ∧
     vehicleAAfterOps.current_fuel_level ≤ vehicleAAfterOps.tank_capacity) := by
  have hr : 0 ≤ vehicleA.fuel_consumption_per_100km := by norm_num [vehicleA]
  have h0 : 0 ≤ vehicleA.current_fuel_level := by norm_num [vehicleA]
  have h1 : vehicleA.current_fuel_level ≤ vehicleA.tank_capacity := by norm_num [vehicleA]
  have hops : [FuelOp.trip 100, FuelOp.refuel 10 500].all FuelOp.nonnegB = true := by
    norm_num [List.all, FuelOp.nonnegB]
  have happ : applyFuelOps true (some vehicleA) [FuelOp.trip 100, FuelOp.refuel 10 500] =
      some vehicleAAfterOps := by
    norm_num [applyFuelOps, update_fuel_after_trip, update_fuel_after_refuel,
      calculate_fuel_consumption, calculate_average_fuel_price_per_liter,
      vehicleA, vehicleAAfterOps, max_def, min_def]
  exact ⟨⟨hr, h0, h1, hops, happ⟩,
    fuel_level_always_in_bounds true vehicleA [FuelOp.trip 100, FuelOp.refuel 10 500]
      hr h0 h1 hops vehicleAAfterOps happ⟩

/-- Vehicle with a 10 L/100km rate used in the round-trip counterexample. -/
def cexVehicle : VehicleConfig :=
  { fuel_consumption_per_100km := 10, tank_capacity := 60,
    current_fuel_level := 45, total_fuel_cost_in_tank := 2250 }

/-- Counterexample to claim C4 as stated: refuelling 100 L into `cexVehicle`
(45 L in a 60 L tank) hits the tank-capacity cap, so the subsequent trip whose
consumption is exactly those 100 L ends at 0 L, not at the 45 L held before the
refuel.  Round-trip conservation fails whenever the refuel overflows the tank. -/
theorem refuel_then_trip_conserves_counterexample :
    calculate_fuel_consumption cexVehicle 1000 = 100 ∧
    ((update_fuel_after_trip true
        (update_fuel_after_refuel (some cexVehicle) 100 5000).1 1000).2).fuelAfter = some 0 ∧
    cexVehicle.current_fuel_level = 45 ∧ ((0 : ℚ) ≠ 45) := by
  refine ⟨by norm_num [calculate_fuel_consumption, cexVehicle], ?_,
    by norm_num [cexVehicle], by norm_num⟩
  norm_num [update_fuel_after_refuel, update_fuel_after_trip, calculate_fuel_consumption,
    calculate_average_fuel_price_per_liter, cexVehicle, FuelTripResult.fuelAfter,
    max_def, min_def]

/-- Claim C4 (amended): when the refuel does not overflow the tank
(`fuel + liters ≤ capacity`), the tank is nonempty afterwards, and the trip's
consumption equals exactly the liters added, `update_fuel_after_refuel` followed
by `update_fuel_after_trip` returns a `fuel_after_liters` equal (exactly, in
rational arithmetic) to the fuel level held before the refuel. -/
theorem refuel_then_trip_conserves (cfg : VehicleConfig) (l c d : ℚ)
    (h0 : 0 ≤ cfg.current_fuel_level)
    (h1 : cfg.current_fuel_level + l ≤ cfg.tank_capacity)
    (h2 : 0 < cfg.current_fuel_level + l)
    (hd : calculate_fuel_consumption cfg d = l) :
    ((update_fuel_after_trip true
        (update_fuel_after_refuel (some cfg) l c).1 d).2).fuelAfter =
      some cfg.current_fuel_level := by
  have hmin : min cfg.tank_capacity (cfg.current_fuel_level + l) =
      cfg.current_fuel_level + l := min_eq_right h1
  have hstate : (update_fuel_after_refuel (some cfg) l c).1 =
      some { cfg with current_fuel_level := cfg.current_fuel_level + l,
                      total_fuel_cost_in_tank := cfg.total_fuel_cost_in_tank + c } := by
    simp [update_fuel_after_refuel, hmin]
  rw [hstate]
  have hpos : ¬ (cfg.current_fuel_level + l ≤ 0) := not_le.mpr h2
  have hcons : calculate_fuel_consumption
      { cfg with current_fuel_level := cfg.current_fuel_level + l,
                 total_fuel_cost_in_tank := cfg.total_fuel_cost_in_tank + c } d = l := by
    simpa [calculate_fuel_consumption] using hd
  simp only [update_fuel_after_trip, Bool.true_eq_false, if_false, hpos, if_neg,
    not_false_iff, hcons, FuelTripResult.fuelAfter]
  rw [add_sub_cancel_right]
  exact congrArg some (max_eq_right h0)

/-- Witness for the amended C4: vehicle A, a 10 L refuel, and the distance
(2000/17 km) whose consumption at 8.5 L/100km is exactly 10 L. -/
theorem refuel_then_trip_conserves_witness :
    (0 ≤ vehicleA.current_fuel_level ∧
     vehicleA.current_fuel_level + 10 ≤ vehicleA.tank_capacity ∧
     0 < vehicleA.current_fuel_level + 10 ∧
     calculate_fuel_consumption vehicleA (2000/17) = 10) ∧
    ((update_fuel_after_trip true
        (update_fuel_after_refuel (some vehicleA) 10 500).1 (2000/17)).2).fuelAfter =
      some vehicleA.current_fuel_level := by
  have ha : 0 ≤ vehicleA.current_fuel_level := by norm_num [vehicleA]
  have hb : vehicleA.current_fuel_level + 10 ≤ vehicleA.tank_capacity := by norm_num [vehicleA]
  have hc : 0 < vehicleA.current_fuel_level + 10 := by norm_num [vehicleA]
  have hd : calculate_fuel_consumption vehicleA (2000/17) = 10 := by
    norm_num [calculate_fuel_consumption, vehicleA]
  exact ⟨⟨ha, hb, hc, hd⟩, refuel_then_trip_conserves vehicleA 10 500 (2000/17) ha hb hc hd⟩

/-- Claim C5: with tracking disabled, `update_fuel_after_trip` is a pure no-op
reporting `trackingDisabled`, for any stored vehicle state and distance; with
tracking enabled and a known vehicle, it reports the no-fuel error exactly when
`current_fuel_level ≤ 0`, and in that case leaves the vehicle record (fuel and
cost) unchanged. -/
theorem update_fuel_after_trip_error_spec :
    (∀ (veh : Option VehicleConfig) (d : ℚ),
        update_fuel_after_trip false veh d = (veh, FuelTripResult.trackingDisabled)) ∧
    ∀ (cfg : VehicleConfig) (d : ℚ),
      ((update_fuel_after_trip true (some cfg) d).2 = FuelTripResult.noFuel ↔
        cfg.current_fuel_level ≤ 0) ∧
      (cfg.current_fuel_level ≤ 0 →
        (update_fuel_after_trip true (some cfg) d).1 = some cfg) := by
  constructor
  · intro veh d
    simp [update_fuel_after_trip]
  · intro cfg d
    by_cases hf : cfg.current_fuel_level ≤ 0
    · simp [update_fuel_after_trip, hf]
    · simp [update_fuel_after_trip, hf]

/-- A known vehicle with an empty tank. -/
def emptyTankVehicle : VehicleConfig :=
  { fuel_consumption_per_100km := 10, tank_capacity := 60,
    current_fuel_level := 0, total_fuel_cost_in_tank := 0 }

/-- Witness for C5 at a concrete empty-tank vehicle and distance 5 km. -/
theorem update_fuel_after_trip_error_spec_witness :
    emptyTankVehicle.current_fuel_level ≤ 0 ∧
    (update_fuel_after_trip true (some emptyTankVehicle) 5).2 = FuelTripResult.noFuel ∧
    (update_fuel_after_trip true (some emptyTankVehicle) 5).1 = some emptyTankVehicle ∧
    update_fuel_after_trip false (some emptyTankVehicle) 5 =
      (some emptyTankVehicle, FuelTripResult.trackingDisabled) := by
  have h : emptyTankVehicle.current_fuel_level ≤ 0 := by norm_num [emptyTankVehicle]
  exact ⟨h, (update_fuel_after_trip_error_spec.2 emptyTankVehicle 5).1.mpr h,
    (update_fuel_after_trip_error_spec.2 emptyTankVehicle 5).2 h,
    update_fuel_after_trip_error_spec.1 (some emptyTankVehicle) 5⟩

/-- Claim C10: when the trip's consumed liters stay strictly below the current
fuel level and the cost decrement does not hit the 0 floor, a trip leaves the
blended average price per liter unchanged (fuel and cost both shrink at exactly
that blended rate). -/
theorem average_price_unchanged_after_trip (cfg : VehicleConfig) (d : ℚ)
    (h1 : calculate_fuel_consumption cfg d < cfg.current_fuel_level)
    (h2 : calculate_fuel_consumption cfg d * calculate_average_fuel_price_per_liter cfg ≤
      cfg.total_fuel_cost_in_tank) :
    vehicleAveragePrice (update_fuel_after_trip true (some cfg) d).1 =
      calculate_average_fuel_price_per_liter cfg := by
  by_cases hf : cfg.current_fuel_level ≤ 0
  · simp [update_fuel_after_trip, hf, vehicleAveragePrice]
  · have hfpos : 0 < cfg.current_fuel_level := lt_of_not_le hf
    have havg : calculate_average_fuel_price_per_liter cfg =
        cfg.total_fuel_cost_in_tank / cfg.current_fuel_level := by
      simp [calculate_average_fuel_price_per_liter, hf]
    have hrem : 0 < cfg.current_fuel_level - calculate_fuel_consumption cfg d := by linarith
    have hmax1 : max 0 (cfg.current_fuel_level - calculate_fuel_consumption cfg d) =
        cfg.current_fuel_level - calculate_fuel_consumption cfg d :=
      max_eq_right (le_of_lt hrem)
    have hmax2 : max 0 (cfg.total_fuel_cost_in_tank -
        calculate_fuel_consumption cfg d * calculate_average_fuel_price_per_liter cfg) =
        cfg.total_fuel_cost_in_tank -
          calculate_fuel_consumption cfg d * calculate_average_fuel_price_per_liter cfg :=
      max_eq_right (by linarith)
    have hstate : (update_fuel_after_trip true (some cfg) d).1 = some
        { cfg with
            current_fuel_level := cfg.current_fuel_level - calculate_fuel_consumption cfg d,
            total_fuel_cost_in_tank := cfg.total_fuel_cost_in_tank -
              calculate_fuel_consumption cfg d * calculate_average_fuel_price_per_liter cfg } := by
      simp [update_fuel_after_trip, hf, hmax1, hmax2]
    rw [hstate]
    have hrem' : ¬ (cfg.current_fuel_level - calculate_fuel_consumption cfg d ≤ 0) :=
      not_le.mpr hrem
    simp only [vehicleAveragePrice, calculate_average_fuel_price_per_liter, hrem', if_false,
      hf, havg]
    have hne1 : cfg.current_fuel_level ≠ 0 := hfpos.ne'
    have hne2 : cfg.current_fuel_level - calculate_fuel_consumption cfg d ≠ 0 := hrem.ne'
    field_simp
    ring

/-- Witness for C10: vehicle A and a 100 km trip (8.5 L consumed out of 45 L,
cost decrement 425 out of 2250); the blended price stays at 50 per liter. -/
theorem average_price_unchanged_after_trip_witness :
    (calculate_fuel_consumption vehicleA 100 < vehicleA.current_fuel_level ∧
     calculate_fuel_consumption vehicleA 100 * calculate_average_fuel_price_per_liter vehicleA ≤
       vehicleA.total_fuel_cost_in_tank) ∧
    vehicleAveragePrice (update_fuel_after_trip true (some vehicleA) 100).1 =
      calculate_average_fuel_price_per_liter vehicleA := by
  have h1 : calculate_fuel_consumption vehicleA 100 < vehicleA.current_fuel_level := by
    norm_num [calculate_fuel_consumption, vehicleA]
  have h2 : calculate_fuel_consumption vehicleA 100 *
      calculate_average_fuel_price_per_liter vehicleA ≤ vehicleA.total_fuel_cost_in_tank := by
    norm_num [calculate_fuel_consumption, calculate_average_fuel_price_per_liter, vehicleA]
  exact ⟨⟨h1, h2⟩, average_price_unchanged_after_trip vehicleA 100 h1 h2⟩

/-! ## Work-day lifecycle (src/state_manager.py) -/

/-- A `WorkDay` row: only the fields `get_active_work_day` / `start_work_day`
consult.  `date` is a day ordinal, `end_time` is unset while the day is open. -/
structure WorkDayRec where
  user_id : Nat
  date : Nat
  end_time : Option Nat
deriving DecidableEq

/-- `StateManager.get_active_work_day` (src/state_manager.py:64-74): the first
row with this user, `date >= today` and `end_time` unset. -/
def get_active_work_day (db : List WorkDayRec) (user_id today : Nat) : Option WorkDayRec :=
  db.find? (fun wd => wd.user_id == user_id && today ≤ wd.date && wd.end_time == none)

/-- `StateManager.start_work_day` (src/state_manager.py:76-96): return the
active work day if one exists, otherwise append a fresh open row dated today.
Result: the new table and the returned work day. -/
def start_work_day (db : List WorkDayRec) (user_id today : Nat) :
    List WorkDayRec × WorkDayRec :=
  match get_active_work_day db user_id today with
  | some wd => (db, wd)
  | none =>
    let wd : WorkDayRec := { user_id := user_id, date := today, end_time := none }
    (db ++ [wd], wd)

/-- Number of open (`end_time` unset) rows of this user dated `today` or later. -/
def openRecentCount (db : List WorkDayRec) (user_id today : Nat) : Nat :=
  (db.filter (fun wd => wd.user_id == user_id && today ≤ wd.date && wd.end_time == none)).length

/-- Counterexample to claim C7 as stated: a work day opened yesterday
(date 0) and never closed is invisible to `get_active_work_day`'s
`date >= today` filter, so `start_work_day` called today (date 1) creates a
second open work day for the same user instead of being a no-op. -/
theorem start_work_day_counterexample :
    ((start_work_day [{ user_id := 1, date := 0, end_time := none }] 1 1).1 ≠
      [{ user_id := 1, date := 0, end_time := none }]) ∧
    ((start_work_day [{ user_id := 1, date := 0, end_time := none }] 1 1).1.filter
      (fun wd => wd.user_id == 1 && wd.end_time == none)).length = 2 := by
  constructor
  · decide
  · decide

/-- Claim C7 (amended): per user there is at most one open work day dated
today or later, and `start_work_day` preserves that bound; when an open work
day dated today or later exists, `start_work_day` is a no-op that returns it
and leaves the table unchanged. -/
theorem start_work_day_unique (db : List WorkDayRec) (user_id today : Nat)
    (h : openRecentCount db user_id today ≤ 1) :
    openRecentCount (start_work_day db user_id today).1 user_id today ≤ 1 ∧
    (∀ wd, get_active_work_day db user_id today = some wd →
      start_work_day db user_id today = (db, wd)) := by
  constructor
  · unfold start_work_day
    cases hfind : get_active_work_day db user_id today with
    | some wd => simpa using h
    | none =>
      have hnone : ∀ wd ∈ db, ¬ (wd.user_id == user_id && today ≤ wd.date &&
          wd.end_time == none) = true := by
        intro wd hwd
        exact List.find?_eq_none.mp hfind wd hwd
      have hfilter : db.filter (fun wd => wd.user_id == user_id && today ≤ wd.date &&
          wd.end_time == none) = [] := by
        apply List.filter_eq_nil.mpr
        intro wd hwd
        exact hnone wd hwd
      simp only [openRecentCount, List.filter_append, hfilter, List.nil_append]
      simp
  · intro wd hwd
    unfold start_work_day
    rw [hwd]

/-- Witness for the amended C7: starting twice on an empty table — the second
call returns the day created by the first and leaves the table unchanged. -/
theorem start_work_day_unique_witness :
    (openRecentCount [{ user_id := 7, date := 3, end_time := none }] 7 3 ≤ 1) ∧
    openRecentCount (start_work_day [{ user_id := 7, date := 3, end_time := none }] 7 3).1 7 3 ≤ 1 ∧
    start_work_day [{ user_id := 7, date := 3, end_time := none }] 7 3 =
      ([{ user_id := 7, date := 3, end_time := none }],
        { user_id := 7, date := 3, end_time := none }) := by
  have h : openRecentCount [{ user_id := 7, date := 3, end_time := none }] 7 3 ≤ 1 := by decide
  have hfind : get_active_work_day [{ user_id := 7, date := 3, end_time := none }] 7 3 =
      some { user_id := 7, date := 3, end_time := none } := by decide
  exact ⟨h, (start_work_day_unique _ 7 3 h).1,
    (start_work_day_unique _ 7 3 h).2 _ hfind⟩

/-! ## Shopping-session close (src/state_manager.py:162-202) -/

/-- An `Activity` row as created by `end_shopping`. -/
structure ActivityRec where
  work_day_id : Nat
  project_id : Nat
  activity_type : String
  duration_minutes : Nat
deriving DecidableEq

/-- The activity rows `StateManager.end_shopping` inserts
(src/state_manager.py:184-197): one per selected project id, each of type
`shopping` with `duration_minutes // len(project_ids)` minutes
(Python integer division on nonnegative ints is `Nat` division). -/
def end_shopping_activities (work_day_id duration_minutes : Nat)
    (project_ids : List Nat) : List ActivityRec :=
  let minutes_per_project := duration_minutes / project_ids.length
  project_ids.map (fun pid =>
    { work_day_id := work_day_id, project_id := pid,
      activity_type := "shopping", duration_minutes := minutes_per_project })

/-- Claim C6: closing a shopping session over a non-empty duplicate-free list
of N projects creates exactly N activity rows, in bijection with the selected
projects, each of type `shopping` and duration `session_duration / N`
(integer division). -/
theorem end_shopping_creates_n_activities (work_day_id duration_minutes : Nat)
    (project_ids : List Nat) (hne : project_ids ≠ []) (hnd : project_ids.Nodup) :
    (end_shopping_activities work_day_id duration_minutes project_ids).length =
      project_ids.length ∧
    ((end_shopping_activities work_day_id duration_minutes project_ids).map
      ActivityRec.project_id) = project_ids ∧
    ∀ a ∈ end_shopping_activities work_day_id duration_minutes project_ids,
      a.activity_type = "shopping" ∧
      a.duration_minutes = duration_minutes / project_ids.length := by
  refine ⟨by simp [end_shopping_activities], ?_, ?_⟩
  · unfold end_shopping_activities
    rw [List.map_map]
    exact List.map_id project_ids
  · intro a ha
    simp only [end_shopping_activities, List.mem_map] at ha
    obtain ⟨pid, _, rfl⟩ := ha
    exact ⟨rfl, rfl⟩

/-- Witness for C6: a 31-minute session over projects {1, 2} yields two
15-minute `shopping` activities. -/
theorem end_shopping_creates_n_activities_witness :
    (([1, 2] : List Nat) ≠ [] ∧ ([1, 2] : List Nat).Nodup) ∧
    ((end_shopping_activities 5 31 [1, 2]).length = 2 ∧
     ((end_shopping_activities 5 31 [1, 2]).map ActivityRec.project_id) = [1, 2] ∧
     ∀ a ∈ end_shopping_activities 5 31 [1, 2],
       a.activity_type = "shopping" ∧ a.duration_minutes = 31 / 2) :=
  ⟨⟨by decide, by decide⟩,
    end_shopping_creates_n_activities 5 31 [1, 2] (by decide) (by decide)⟩

/-! ## Allocation engine (src/report_generator.py:82-356) -/

/-- Whether `needle` is a prefix of `hay` (over characters). -/
def isPrefixB : List Char → List Char → Bool
  | [], _ => true
  | _ :: _, [] => false
  | a :: as, b :: bs => a == b && isPrefixB as bs

/-- Python's `needle in hay` on strings: contiguous-substring containment. -/
def containsSeq (needle : List Char) : List Char → Bool
  | [] => isPrefixB needle []
  | b :: bs => isPrefixB needle (b :: bs) || containsSeq needle bs

/-- An `Activity` row as read by the allocation engine. -/
structure Activity where
  project_id : Nat
  duration_minutes : ℚ
deriving DecidableEq

/-- A `Trip` row as read by the allocation engine.  `project_id` is the
nullable direct assignment, `end_location` the free-text destination. -/
structure Trip where
  project_id : Option Nat
  end_location : List Char
  duration_minutes : ℚ
  distance_km : ℚ
deriving DecidableEq

/-- A `ShoppingSession` row; `projects_data` is the decoded JSON id list. -/
structure ShoppingSession where
  projects_data : List Nat
deriving DecidableEq

/-- An `IdleTime` row; `project_ids` is the decoded JSON id list. -/
structure IdleTime where
  project_ids : List Nat
  duration_minutes : ℚ
deriving DecidableEq

/-- Python truthiness of a nullable integer foreign key:
`None` and `0` are falsy. -/
def pyTruthyOpt : Option Nat → Bool
  | none => false
  | some n => n != 0

/-- `'Магазин' in (t.end_location or '')` (src/report_generator.py:147). -/
def isShopLocation (loc : List Char) : Bool := containsSeq "Магазин".toList loc

/-- `('Дом' in loc) or ('Склад' in loc)` (src/report_generator.py:196-197). -/
def isHomeWarehouseLocation (loc : List Char) : Bool :=
  containsSeq "Дом".toList loc || containsSeq "Склад".toList loc

/-- `'Заправка' in loc` (src/report_generator.py:262). -/
def isFuelStationLocation (loc : List Char) : Bool := containsSeq "Заправка".toList loc

/-- The shop-trip filter of src/report_generator.py:147. -/
def isShopTrip (t : Trip) : Bool := !pyTruthyOpt t.project_id && isShopLocation t.end_location

/-- The home/warehouse-trip filter of src/report_generator.py:196-197. -/
def isHomeWarehouseTrip (t : Trip) : Bool :=
  !pyTruthyOpt t.project_id && isHomeWarehouseLocation t.end_location

/-- The fuel-station-trip filter of src/report_generator.py:262. -/
def isFuelStationTrip (t : Trip) : Bool :=
  !pyTruthyOpt t.project_id && isFuelStationLocation t.end_location

/-- One project's accumulated totals: the value type of the
`project_totals` dictionary (src/report_generator.py:97-105), without the
itemised description strings. -/
structure Totals where
  time_minutes : ℚ
  distance_km : ℚ
  fuel_consumed_liters : ℚ
  fuel_cost : ℚ
  time_cost : ℚ
deriving DecidableEq

/-- The all-zero bucket a project starts from when first inserted. -/
def Totals.zero : Totals := ⟨0, 0, 0, 0, 0⟩

/-- The `project_totals` dict, as a total map defaulting to the zero bucket. -/
def PTmap := Nat → Totals

/-- Fuel consumed by one trip inside the allocation
(src/report_generator.py:134-136 and the analogous shared-trip blocks):
nonzero only when the work day has a known vehicle and the distance is
positive. -/
def tripFuelConsumed (veh : Option VehicleConfig) (distance_km : ℚ) : ℚ :=
  match veh with
  | some cfg => if 0 < distance_km then calculate_fuel_consumption cfg distance_km else 0
  | none => 0

/-- Fuel cost of one trip inside the allocation: consumed liters times the
vehicle's blended price (0 for an unknown vehicle). -/
def tripFuelCost (veh : Option VehicleConfig) (distance_km : ℚ) : ℚ :=
  tripFuelConsumed veh distance_km * vehicleAveragePrice veh

/-- The activity loop body (src/report_generator.py:96-114): add the
activity's minutes and time cost to its project's bucket. -/
def addActivity (pph : ℚ) (a : Activity) (m : PTmap) : PTmap :=
  fun p =>
    if p = a.project_id then
      { m p with
          time_minutes := (m p).time_minutes + a.duration_minutes,
          time_cost := (m p).time_cost + a.duration_minutes / 60 * pph }
    else m p

/-- The direct-trip loop body (src/report_generator.py:117-144): a trip with a
truthy `project_id` contributes its full minutes, distance, fuel and costs to
that project; other trips are skipped here. -/
def addDirectTrip (pph : ℚ) (veh : Option VehicleConfig) (t : Trip) (m : PTmap) : PTmap :=
  match t.project_id with
  | none => m
  | some pid =>
    if pid = 0 then m
    else
      fun p =>
        if p = pid then
          { m p with
              time_minutes := (m p).time_minutes + t.duration_minutes,
              distance_km := (m p).distance_km + t.distance_km,
              fuel_consumed_liters := (m p).fuel_consumed_liters +
                tripFuelConsumed veh t.distance_km,
              fuel_cost := (m p).fuel_cost + tripFuelCost veh t.distance_km,
              time_cost := (m p).time_cost + t.duration_minutes / 60 * pph }
        else m p

/-- The body of each shared-trip loop (src/report_generator.py:149-193,
199-259, 264-327): if the determining project set `s` is non-empty, every
project in it receives a `1/|s|` share of the trip's minutes, distance, fuel
and costs; if `s` is empty the trip is dropped. -/
def addSharedTrip (pph : ℚ) (veh : Option VehicleConfig) (s : Finset Nat) (t : Trip)
    (m : PTmap) : PTmap :=
  if s = ∅ then m
  else
    let n : ℚ := s.card
    fun p =>
      if p ∈ s then
        { m p with
            time_minutes := (m p).time_minutes + t.duration_minutes / n,
            distance_km := (m p).distance_km + t.distance_km / n,
            fuel_consumed_liters := (m p).fuel_consumed_liters +
              tripFuelConsumed veh t.distance_km / n,
            fuel_cost := (m p).fuel_cost + tripFuelCost veh t.distance_km / n,
            time_cost := (m p).time_cost + t.duration_minutes / n / 60 * pph }
      else m p

/-- One step of the idle-time inner loop: add `share` minutes (and the
corresponding time cost) to project `pid`. -/
def idleStep (pph share : ℚ) (m' : PTmap) (pid : Nat) : PTmap :=
  fun p =>
    if p = pid then
      { m' p with
          time_minutes := (m' p).time_minutes + share,
          time_cost := (m' p).time_cost + share / 60 * pph }
    else m' p

/-- The idle-time loop body (src/report_generator.py:330-354): the duration is
divided by the length of the id list and added once per list element (the
source iterates the decoded list, not a set). -/
def addIdleTime (pph : ℚ) (it : IdleTime) (m : PTmap) : PTmap :=
  if it.project_ids = [] then m
  else
    it.project_ids.foldl
      (idleStep pph (it.duration_minutes / (it.project_ids.length : ℚ)))
      m

/-- Union of the decoded project sets of all shopping sessions
(src/report_generator.py:150-155, recomputed identically for every shop trip). -/
def shoppingProjects (sessions : List ShoppingSession) : Finset Nat :=
  sessions.foldl (fun s sess => s ∪ sess.projects_data.toFinset) ∅

/-- Project ids of activities with a truthy `project_id`
(src/report_generator.py:205-208). -/
def activityProjects (activities : List Activity) : Finset Nat :=
  activities.foldl (fun s a => if a.project_id ≠ 0 then insert a.project_id s else s) ∅

/-- Project ids of trips with a truthy `project_id`
(src/report_generator.py:210-213). -/
def directTripProjects (trips : List Trip) : Finset Nat :=
  trips.foldl
    (fun s t =>
      match t.project_id with
      | some pid => if pid ≠ 0 then insert pid s else s
      | none => s)
    ∅

/-- Union of the decoded project sets of all idle times
(src/report_generator.py:285-289). -/
def idleProjects (idle_times : List IdleTime) : Finset Nat :=
  idle_times.foldl (fun s it => s ∪ it.project_ids.toFinset) ∅

/-- The `active_projects` pool splitting home/warehouse trips
(src/report_generator.py:200-219): activities, directly-attributed trips and
shopping sessions — idle-time projects are not included. -/
def activeProjects (activities : List Activity) (trips : List Trip)
    (sessions : List ShoppingSession) : Finset Nat :=
  activityProjects activities ∪ directTripProjects trips ∪ shoppingProjects sessions

/-- The `all_available_projects` pool splitting fuel-station trips
(src/report_generator.py:265-289): the home/warehouse pool plus idle-time
projects. -/
def allAvailableProjects (activities : List Activity) (trips : List Trip)
    (sessions : List ShoppingSession) (idle_times : List IdleTime) : Finset Nat :=
  activeProjects activities trips sessions ∪ idleProjects idle_times

/-- `ReportGenerator._calculate_project_totals`
(src/report_generator.py:82-356), restricted to the numeric fields: the six
accumulation passes run in source order over the same rows. -/
def calculateProjectTotals (pph : ℚ) (veh : Option VehicleConfig)
    (activities : List Activity) (trips : List Trip)
    (sessions : List ShoppingSession) (idle_times : List IdleTime) : PTmap :=
  let m0 : PTmap := fun _ => Totals.zero
  let m1 := activities.foldl (fun m a => addActivity pph a m) m0
  let m2 := trips.foldl (fun m t => addDirectTrip pph veh t m) m1
  let m3 := (trips.filter isShopTrip).foldl
    (fun m t => addSharedTrip pph veh (shoppingProjects sessions) t m) m2
  let m4 := (trips.filter isHomeWarehouseTrip).foldl
    (fun m t => addSharedTrip pph veh (activeProjects activities trips sessions) t m) m3
  let m5 := (trips.filter isFuelStationTrip).foldl
    (fun m t => addSharedTrip pph veh
      (allAvailableProjects activities trips sessions idle_times) t m) m4
  idle_times.foldl (fun m it => addIdleTime pph it m) m5

/-! ## Allocation engine: per-project component sums -/

/-- Sum of `duration_minutes` over a trip list. -/
def sumDuration (ts : List Trip) : ℚ := (ts.map Trip.duration_minutes).sum

/-- Sum of `distance_km` over a trip list. -/
def sumDistance (ts : List Trip) : ℚ := (ts.map Trip.distance_km).sum

/-- Sum of allocated trip fuel over a trip list. -/
def sumTripFuel (veh : Option VehicleConfig) (ts : List Trip) : ℚ :=
  (ts.map (fun t => tripFuelConsumed veh t.distance_km)).sum

/-- The trip is directly attributed (truthy `project_id`) to project `p`. -/
def tripAssignedTo (t : Trip) (p : Nat) : Bool :=
  pyTruthyOpt t.project_id && t.project_id == some p

/-- Total distance of the trips directly assigned to `p`. -/
def directTripDistance (trips : List Trip) (p : Nat) : ℚ :=
  sumDistance (trips.filter (fun t => tripAssignedTo t p))

/-- Total minutes of the trips directly assigned to `p`. -/
def directTripTime (trips : List Trip) (p : Nat) : ℚ :=
  sumDuration (trips.filter (fun t => tripAssignedTo t p))

/-- Total allocated fuel of the trips directly assigned to `p`. -/
def directTripFuel (veh : Option VehicleConfig) (trips : List Trip) (p : Nat) : ℚ :=
  sumTripFuel veh (trips.filter (fun t => tripAssignedTo t p))

/-- Total minutes of the activities recorded for `p`. -/
def directActivityTime (activities : List Activity) (p : Nat) : ℚ :=
  ((activities.filter (fun a => a.project_id == p)).map Activity.duration_minutes).sum

/-- `p`'s even share of quantity `x` split over the pool `s`:
`x / |s|` if `p ∈ s`, nothing otherwise (in particular nothing when `s = ∅`). -/
def shareTerm (s : Finset Nat) (p : Nat) (x : ℚ) : ℚ :=
  if p ∈ s then x / (s.card : ℚ) else 0

/-- `p`'s total idle-time minutes: each idle record contributes
`duration/len` once per occurrence of `p` in its id list. -/
def idleTimeShare (idle_times : List IdleTime) (p : Nat) : ℚ :=
  (idle_times.map (fun it =>
    if it.project_ids = [] then 0
    else it.duration_minutes / (it.project_ids.length : ℚ) * (it.project_ids.count p : ℚ))).sum

/-! ## Allocation engine: pass lemmas -/

/-- The activity pass leaves `distance_km` untouched. -/
theorem foldActivity_dist (pph : ℚ) (acts : List Activity) (p : Nat) (m : PTmap) :
    ((acts.foldl (fun m a => addActivity pph a m) m) p).distance_km = (m p).distance_km := by
  induction acts generalizing m with
  | nil => rfl
  | cons a as ih =>
    rw [List.foldl_cons, ih]
    unfold addActivity
    by_cases h : p = a.project_id <;> simp [h]

/-- The activity pass leaves `fuel_consumed_liters` untouched. -/
theorem foldActivity_fuel (pph : ℚ) (acts : List Activity) (p : Nat) (m : PTmap) :
    ((acts.foldl (fun m a => addActivity pph a m) m) p).fuel_consumed_liters =
      (m p).fuel_consumed_liters := by
  induction acts generalizing m with
  | nil => rfl
  | cons a as ih =>
    rw [List.foldl_cons, ih]
    unfold addActivity
    by_cases h : p = a.project_id <;> simp [h]

/-- Unfolding step of `directActivityTime`. -/
theorem directActivityTime_cons (a : Activity) (as : List Activity) (p : Nat) :
    directActivityTime (a :: as) p =
      (if a.project_id = p then a.duration_minutes else 0) + directActivityTime as p := by
  unfold directActivityTime
  rw [List.filter_cons]
  by_cases h : a.project_id = p
  · simp [h]
  · simp [h]

/-- The activity pass adds exactly the activities' minutes for `p`. -/
theorem foldActivity_time (pph : ℚ) (acts : List Activity) (p : Nat) (m : PTmap) :
    ((acts.foldl (fun m a => addActivity pph a m) m) p).time_minutes =
      (m p).time_minutes + directActivityTime acts p := by
  induction acts generalizing m with
  | nil => simp [directActivityTime]
  | cons a as ih =>
    rw [List.foldl_cons, ih, directActivityTime_cons]
    unfold addActivity
    by_cases h : p = a.project_id
    · simp [h]
      ring
    · have h2 : ¬ a.project_id = p := fun hh => h hh.symm
      simp [h, h2]

/-- Unfolding step of `directTripDistance`. -/
theorem directTripDistance_cons (t : Trip) (ts : List Trip) (p : Nat) :
    directTripDistance (t :: ts) p =
      (if tripAssignedTo t p then t.distance_km else 0) + directTripDistance ts p := by
  unfold directTripDistance sumDistance
  rw [List.filter_cons]
  by_cases h : tripAssignedTo t p <;> simp [h]

/-- Unfolding step of `directTripTime`. -/
theorem directTripTime_cons (t : Trip) (ts : List Trip) (p : Nat) :
    directTripTime (t :: ts) p =
      (if tripAssignedTo t p then t.duration_minutes else 0) + directTripTime ts p := by
  unfold directTripTime sumDuration
  rw [List.filter_cons]
  by_cases h : tripAssignedTo t p <;> simp [h]

/-- Unfolding step of `directTripFuel`. -/
theorem directTripFuel_cons (veh : Option VehicleConfig) (t : Trip) (ts : List Trip) (p : Nat) :
    directTripFuel veh (t :: ts) p =
      (if tripAssignedTo t p then tripFuelConsumed veh t.distance_km else 0) +
        directTripFuel veh ts p := by
  unfold directTripFuel sumTripFuel
  rw [List.filter_cons]
  by_cases h : tripAssignedTo t p <;> simp [h]

/-- The direct-trip pass adds exactly the directly-assigned distance for `p`. -/
theorem foldDirect_dist (pph : ℚ) (veh : Option VehicleConfig) (trips : List Trip)
    (p : Nat) (m : PTmap) :
    ((trips.foldl (fun m t => addDirectTrip pph veh t m) m) p).distance_km =
      (m p).distance_km + directTripDistance trips p := by
  induction trips generalizing m with
  | nil => simp [directTripDistance, sumDistance]
  | cons t ts ih =>
    rw [List.foldl_cons, ih, directTripDistance_cons]
    unfold addDirectTrip tripAssignedTo
    cases hp : t.project_id with
    | none => simp [pyTruthyOpt]
    | some pid =>
      by_cases hz : pid = 0
      · simp [pyTruthyOpt, hz]
      · by_cases hpp : p = pid
        · simp [pyTruthyOpt, hz, hpp]
          ring
        · have h2 : ¬ pid = p := fun hh => hpp hh.symm
          simp [pyTruthyOpt, hz, hpp, h2]

/-- The direct-trip pass adds exactly the directly-assigned minutes for `p`. -/
theorem foldDirect_time (pph : ℚ) (veh : Option VehicleConfig) (trips : List Trip)
    (p : Nat) (m : PTmap) :
    ((trips.foldl (fun m t => addDirectTrip pph veh t m) m) p).time_minutes =
      (m p).time_minutes + directTripTime trips p := by
  induction trips generalizing m with
  | nil => simp [directTripTime, sumDuration]
  | cons t ts ih =>
    rw [List.foldl_cons, ih, directTripTime_cons]
    unfold addDirectTrip tripAssignedTo
    cases hp : t.project_id with
    | none => simp [pyTruthyOpt]
    | some pid =>
      by_cases hz : pid = 0
      · simp [pyTruthyOpt, hz]
      · by_cases hpp : p = pid
        · simp [pyTruthyOpt, hz, hpp]
          ring
        · have h2 : ¬ pid = p := fun hh => hpp hh.symm
          simp [pyTruthyOpt, hz, hpp, h2]

/-- The direct-trip pass adds exactly the directly-assigned fuel for `p`. -/
theorem foldDirect_fuel (pph : ℚ) (veh : Option VehicleConfig) (trips : List Trip)
    (p : Nat) (m : PTmap) :
    ((trips.foldl (fun m t => addDirectTrip pph veh t m) m) p).fuel_consumed_liters =
      (m p).fuel_consumed_liters + directTripFuel veh trips p := by
  induction trips generalizing m with
  | nil => simp [directTripFuel, sumTripFuel]
  | cons t ts ih =>
    rw [List.foldl_cons, ih, directTripFuel_cons]
    unfold addDirectTrip tripAssignedTo
    cases hp : t.project_id with
    | none => simp [pyTruthyOpt]
    | some pid =>
      by_cases hz : pid = 0
      · simp [pyTruthyOpt, hz]
      · by_cases hpp : p = pid
        · simp [pyTruthyOpt, hz, hpp]
          ring
        · have h2 : ¬ pid = p := fun hh => hpp hh.symm
          simp [pyTruthyOpt, hz, hpp, h2]

/-- A shared-trip pass over pool `s` adds each trip's `1/|s|` distance share
for the members of `s` and nothing for anyone else. -/
theorem foldShared_dist (pph : ℚ) (veh : Option VehicleConfig) (s : Finset Nat)
    (ts : List Trip) (p : Nat) (m : PTmap) :
    ((ts.foldl (fun m t => addSharedTrip pph veh s t m) m) p).distance_km =
      (m p).distance_km + shareTerm s p (sumDistance ts) := by
  induction ts generalizing m with
  | nil => simp [sumDistance, shareTerm]
  | cons t ts ih =>
    rw [List.foldl_cons, ih]
    unfold addSharedTrip shareTerm
    by_cases hs : s = ∅
    · simp [hs]
    · by_cases hp : p ∈ s
      · simp [hs, hp, sumDistance]
        rw [add_div]
        ring
      · simp [hs, hp]

/-- A shared-trip pass over pool `s` adds each trip's `1/|s|` minutes share
for the members of `s` and nothing for anyone else. -/
theorem foldShared_time (pph : ℚ) (veh : Option VehicleConfig) (s : Finset Nat)
    (ts : List Trip) (p : Nat) (m : PTmap) :
    ((ts.foldl (fun m t => addSharedTrip pph veh s t m) m) p).time_minutes =
      (m p).time_minutes + shareTerm s p (sumDuration ts) := by
  induction ts generalizing m with
  | nil => simp [sumDuration, shareTerm]
  | cons t ts ih =>
    rw [List.foldl_cons, ih]
    unfold addSharedTrip shareTerm
    by_cases hs : s = ∅
    · simp [hs]
    · by_cases hp : p ∈ s
      · simp [hs, hp, sumDuration]
        rw [add_div]
        ring
      · simp [hs, hp]

/-- A shared-trip pass over pool `s` adds each trip's `1/|s|` fuel share
for the members of `s` and nothing for anyone else. -/
theorem foldShared_fuel (pph : ℚ) (veh : Option VehicleConfig) (s : Finset Nat)
    (ts : List Trip) (p : Nat) (m : PTmap) :
    ((ts.foldl (fun m t => addSharedTrip pph veh s t m) m) p).fuel_consumed_liters =
      (m p).fuel_consumed_liters + shareTerm s p (sumTripFuel veh ts) := by
  induction ts generalizing m with
  | nil => simp [sumTripFuel, shareTerm]
  | cons t ts ih =>
    rw [List.foldl_cons, ih]
    unfold addSharedTrip shareTerm
    by_cases hs : s = ∅
    · simp [hs]
    · by_cases hp : p ∈ s
      · simp [hs, hp, sumTripFuel]
        rw [add_div]
        ring
      · simp [hs, hp]

/-- The inner per-id loop of the idle pass adds `share` once per occurrence of
`p` in the id list (and touches only the time fields). -/
theorem foldIdleInner_time (pph share : ℚ) (pids : List Nat) (p : Nat) (m : PTmap) :
    ((pids.foldl (idleStep pph share) m) p).time_minutes =
      (m p).time_minutes + share * (pids.count p : ℚ) := by
  induction pids generalizing m with
  | nil => simp
  | cons pid rest ih =>
    rw [List.foldl_cons, ih]
    unfold idleStep
    by_cases h : p = pid
    · simp [h, List.count_cons]
      push_cast
      ring
    · have h2 : ¬ pid = p := fun hh => h hh.symm
      simp [h, h2, List.count_cons]

/-- The inner per-id loop of the idle pass never touches `distance_km`. -/
theorem foldIdleInner_dist (pph share : ℚ) (pids : List Nat) (p : Nat) (m : PTmap) :
    ((pids.foldl (idleStep pph share) m) p).distance_km = (m p).distance_km := by
  induction pids generalizing m with
  | nil => rfl
  | cons pid rest ih =>
    rw [List.foldl_cons, ih]
    unfold idleStep
    by_cases h : p = pid <;> simp [h]

/-- The inner per-id loop of the idle pass never touches fuel. -/
theorem foldIdleInner_fuel (pph share : ℚ) (pids : List Nat) (p : Nat) (m : PTmap) :
    ((pids.foldl (idleStep pph share) m) p).fuel_consumed_liters =
      (m p).fuel_consumed_liters := by
  induction pids generalizing m with
  | nil => rfl
  | cons pid rest ih =>
    rw [List.foldl_cons, ih]
    unfold idleStep
    by_cases h : p = pid <;> simp [h]

/-- The idle pass adds exactly `p`'s idle-time shares to `time_minutes`. -/
theorem foldIdle_time (pph : ℚ) (idles : List IdleTime) (p : Nat) (m : PTmap) :
    ((idles.foldl (fun m it => addIdleTime pph it m) m) p).time_minutes =
      (m p).time_minutes + idleTimeShare idles p := by
  induction idles generalizing m with
  | nil => simp [idleTimeShare]
  | cons it rest ih =>
    rw [List.foldl_cons, ih]
    unfold addIdleTime
    by_cases he : it.project_ids = []
    · simp [he, idleTimeShare]
    · rw [if_neg he,
        foldIdleInner_time pph (it.duration_minutes / (it.project_ids.length : ℚ))
          it.project_ids p m]
      simp [idleTimeShare, he]
      ring

/-- The idle pass leaves `distance_km` untouched. -/
theorem foldIdle_dist (pph : ℚ) (idles : List IdleTime) (p : Nat) (m : PTmap) :
    ((idles.foldl (fun m it => addIdleTime pph it m) m) p).distance_km =
      (m p).distance_km := by
  induction idles generalizing m with
  | nil => rfl
  | cons it rest ih =>
    rw [List.foldl_cons, ih]
    unfold addIdleTime
    by_cases he : it.project_ids = []
    · simp [he]
    · rw [if_neg he]
      exact foldIdleInner_dist pph (it.duration_minutes / (it.project_ids.length : ℚ))
        it.project_ids p m

/-- The idle pass leaves `fuel_consumed_liters` untouched. -/
theorem foldIdle_fuel (pph : ℚ) (idles : List IdleTime) (p : Nat) (m : PTmap) :
    ((idles.foldl (fun m it => addIdleTime pph it m) m) p).fuel_consumed_liters =
      (m p).fuel_consumed_liters := by
  induction idles generalizing m with
  | nil => rfl
  | cons it rest ih =>
    rw [List.foldl_cons, ih]
    unfold addIdleTime
    by_cases he : it.project_ids = []
    · simp [he]
    · rw [if_neg he]
      exact foldIdleInner_fuel pph (it.duration_minutes / (it.project_ids.length : ℚ))
        it.project_ids p m

/-! ## Allocation engine: decomposition of the totals -/

/-- Distance decomposition of `_calculate_project_totals`: a project's
`distance_km` is its directly-assigned trip distance plus its even shares of
the shop, home/warehouse and fuel-station pools. -/
theorem calcTotals_dist (pph : ℚ) (veh : Option VehicleConfig)
    (activities : List Activity) (trips : List Trip)
    (sessions : List ShoppingSession) (idle_times : List IdleTime) (p : Nat) :
    (calculateProjectTotals pph veh activities trips sessions idle_times p).distance_km =
      directTripDistance trips p
      + shareTerm (shoppingProjects sessions) p (sumDistance (trips.filter isShopTrip))
      + shareTerm (activeProjects activities trips sessions) p
          (sumDistance (trips.filter isHomeWarehouseTrip))
      + shareTerm (allAvailableProjects activities trips sessions idle_times) p
          (sumDistance (trips.filter isFuelStationTrip)) := by
  simp only [calculateProjectTotals]
  rw [foldIdle_dist, foldShared_dist, foldShared_dist, foldShared_dist, foldDirect_dist,
    foldActivity_dist]
  simp [Totals.zero]

/-- Time decomposition of `_calculate_project_totals`: a project's
`time_minutes` is its activity minutes, its directly-assigned trip minutes,
its even shares of the three shared-trip pools, and its idle-time shares. -/
theorem calcTotals_time (pph : ℚ) (veh : Option VehicleConfig)
    (activities : List Activity) (trips : List Trip)
    (sessions : List ShoppingSession) (idle_times : List IdleTime) (p : Nat) :
    (calculateProjectTotals pph veh activities trips sessions idle_times p).time_minutes =
      directActivityTime activities p
      + directTripTime trips p
      + shareTerm (shoppingProjects sessions) p (sumDuration (trips.filter isShopTrip))
      + shareTerm (activeProjects activities trips sessions) p
          (sumDuration (trips.filter isHomeWarehouseTrip))
      + shareTerm (allAvailableProjects activities trips sessions idle_times) p
          (sumDuration (trips.filter isFuelStationTrip))
      + idleTimeShare idle_times p := by
  simp only [calculateProjectTotals]
  rw [foldIdle_time, foldShared_time, foldShared_time, foldShared_time, foldDirect_time,
    foldActivity_time]
  simp [Totals.zero]

/-- Fuel decomposition of `_calculate_project_totals`: a project's
`fuel_consumed_liters` is its directly-assigned trip fuel plus its even
shares of the three shared-trip pools. -/
theorem calcTotals_fuel (pph : ℚ) (veh : Option VehicleConfig)
    (activities : List Activity) (trips : List Trip)
    (sessions : List ShoppingSession) (idle_times : List IdleTime) (p : Nat) :
    (calculateProjectTotals pph veh activities trips sessions idle_times p).fuel_consumed_liters =
      directTripFuel veh trips p
      + shareTerm (shoppingProjects sessions) p (sumTripFuel veh (trips.filter isShopTrip))
      + shareTerm (activeProjects activities trips sessions) p
          (sumTripFuel veh (trips.filter isHomeWarehouseTrip))
      + shareTerm (allAvailableProjects activities trips sessions idle_times) p
          (sumTripFuel veh (trips.filter isFuelStationTrip)) := by
  simp only [calculateProjectTotals]
  rw [foldIdle_fuel, foldShared_fuel, foldShared_fuel, foldShared_fuel, foldDirect_fuel,
    foldActivity_fuel]
  simp [Totals.zero]

/-! ## Allocation engine: append lemmas for an unattributed shop trip -/

/-- Appending an unattributed trip does not change any direct-distance sum. -/
theorem directTripDistance_append_unattributed (trips : List Trip) (t : Trip) (p : Nat)
    (ht : pyTruthyOpt t.project_id = false) :
    directTripDistance (trips ++ [t]) p = directTripDistance trips p := by
  unfold directTripDistance sumDistance
  rw [List.filter_append]
  have : tripAssignedTo t p = false := by
    unfold tripAssignedTo
    rw [ht]
    rfl
  simp [this]

/-- Appending an unattributed trip does not change any direct-minutes sum. -/
theorem directTripTime_append_unattributed (trips : List Trip) (t : Trip) (p : Nat)
    (ht : pyTruthyOpt t.project_id = false) :
    directTripTime (trips ++ [t]) p = directTripTime trips p := by
  unfold directTripTime sumDuration
  rw [List.filter_append]
  have : tripAssignedTo t p = false := by
    unfold tripAssignedTo
    rw [ht]
    rfl
  simp [this]

/-- Appending an unattributed trip does not change any direct-fuel sum. -/
theorem directTripFuel_append_unattributed (veh : Option VehicleConfig)
    (trips : List Trip) (t : Trip) (p : Nat)
    (ht : pyTruthyOpt t.project_id = false) :
    directTripFuel veh (trips ++ [t]) p = directTripFuel veh trips p := by
  unfold directTripFuel sumTripFuel
  rw [List.filter_append]
  have : tripAssignedTo t p = false := by
    unfold tripAssignedTo
    rw [ht]
    rfl
  simp [this]

/-- Appending an unattributed trip does not enlarge the direct-trip
project pool. -/
theorem directTripProjects_append_unattributed (trips : List Trip) (t : Trip)
    (ht : pyTruthyOpt t.project_id = false) :
    directTripProjects (trips ++ [t]) = directTripProjects trips := by
  unfold directTripProjects
  rw [List.foldl_append]
  cases hp : t.project_id with
  | none => simp [hp]
  | some pid =>
    have hz : pid = 0 := by
      unfold pyTruthyOpt at ht
      rw [hp] at ht
      simpa using ht
    simp [hp, hz]

/-- Even shares are additive in the shared quantity. -/
theorem shareTerm_add (s : Finset Nat) (p : Nat) (x y : ℚ) :
    shareTerm s p (x + y) = shareTerm s p x + shareTerm s p y := by
  unfold shareTerm
  by_cases hp : p ∈ s
  · simp [hp, add_div]
  · simp [hp]

/-- Claim C1: appending one unattributed shop trip (a trip whose destination
matches the shop catalog entry and none of the home/warehouse/fuel-station
entries) to a work day adds exactly a `1/N` share of its minutes, distance and
fuel to every project in the union of the day's shopping-session project sets,
and nothing to any other project; when that union is empty the trip
contributes nothing at all. -/
theorem shop_trip_contribution (pph : ℚ) (veh : Option VehicleConfig)
    (activities : List Activity) (trips : List Trip)
    (sessions : List ShoppingSession) (idle_times : List IdleTime)
    (t : Trip) (p : Nat)
    (ht1 : pyTruthyOpt t.project_id = false)
    (ht2 : isShopLocation t.end_location = true)
    (ht3 : isHomeWarehouseLocation t.end_location = false)
    (ht4 : isFuelStationLocation t.end_location = false) :
    (calculateProjectTotals pph veh activities (trips ++ [t]) sessions idle_times p).time_minutes
      = (calculateProjectTotals pph veh activities trips sessions idle_times p).time_minutes
        + shareTerm (shoppingProjects sessions) p t.duration_minutes ∧
    (calculateProjectTotals pph veh activities (trips ++ [t]) sessions idle_times p).distance_km
      = (calculateProjectTotals pph veh activities trips sessions idle_times p).distance_km
        + shareTerm (shoppingProjects sessions) p t.distance_km ∧
    (calculateProjectTotals pph veh activities (trips ++ [t]) sessions idle_times
        p).fuel_consumed_liters
      = (calculateProjectTotals pph veh activities trips sessions idle_times
          p).fuel_consumed_liters
        + shareTerm (shoppingProjects sessions) p (tripFuelConsumed veh t.distance_km) := by
  have hshop : isShopTrip t = true := by
    unfold isShopTrip
    rw [ht1, ht2]
    rfl
  have hhw : isHomeWarehouseTrip t = false := by
    unfold isHomeWarehouseTrip
    rw [ht3]
    simp
  have hfs : isFuelStationTrip t = false := by
    unfold isFuelStationTrip
    rw [ht4]
    simp
  have hfilter_shop : (trips ++ [t]).filter isShopTrip = trips.filter isShopTrip ++ [t] := by
    rw [List.filter_append]
    simp [hshop]
  have hfilter_hw : (trips ++ [t]).filter isHomeWarehouseTrip =
      trips.filter isHomeWarehouseTrip := by
    rw [List.filter_append]
    simp [hhw]
  have hfilter_fs : (trips ++ [t]).filter isFuelStationTrip =
      trips.filter isFuelStationTrip := by
    rw [List.filter_append]
    simp [hfs]
  have hactive : activeProjects activities (trips ++ [t]) sessions =
      activeProjects activities trips sessions := by
    unfold activeProjects
    rw [directTripProjects_append_unattributed trips t ht1]
  have hall : allAvailableProjects activities (trips ++ [t]) sessions idle_times =
      allAvailableProjects activities trips sessions idle_times := by
    unfold allAvailableProjects
    rw [hactive]
  refine ⟨?_, ?_, ?_⟩
  · rw [calcTotals_time, calcTotals_time, hfilter_shop, hfilter_hw, hfilter_fs, hactive, hall,
      directTripTime_append_unattributed trips t p ht1]
    have : sumDuration (trips.filter isShopTrip ++ [t]) =
        sumDuration (trips.filter isShopTrip) + t.duration_minutes := by
      simp [sumDuration]
    rw [this, shareTerm_add]
    ring
  · rw [calcTotals_dist, calcTotals_dist, hfilter_shop, hfilter_hw, hfilter_fs, hactive, hall,
      directTripDistance_append_unattributed trips t p ht1]
    have : sumDistance (trips.filter isShopTrip ++ [t]) =
        sumDistance (trips.filter isShopTrip) + t.distance_km := by
      simp [sumDistance]
    rw [this, shareTerm_add]
    ring
  · rw [calcTotals_fuel, calcTotals_fuel, hfilter_shop, hfilter_hw, hfilter_fs, hactive, hall,
      directTripFuel_append_unattributed veh trips t p ht1]
    have : sumTripFuel veh (trips.filter isShopTrip ++ [t]) =
        sumTripFuel veh (trips.filter isShopTrip) + tripFuelConsumed veh t.distance_km := by
      simp [sumTripFuel]
    rw [this, shareTerm_add]
    ring

/-- The shop trip of the specification's worked scenario:
30 min, 10 km, no project, destination the shop catalog entry. -/
def shopTripEx : Trip :=
  { project_id := none, end_location := "Магазин".toList,
    duration_minutes := 30, distance_km := 10 }

/-- A one-hour work activity on project 1. -/
def activityEx : Activity := { project_id := 1, duration_minutes := 60 }

/-- A shopping session over projects 1 and 2. -/
def sessionEx : ShoppingSession := { projects_data := [1, 2] }

/-- Witness for C1 on the specification's scenario: the shop trip gives
project 1 a half share (15 min, 5 km) on top of the day without the trip. -/
theorem shop_trip_contribution_witness :
    (pyTruthyOpt shopTripEx.project_id = false ∧
     isShopLocation shopTripEx.end_location = true ∧
     isHomeWarehouseLocation shopTripEx.end_location = false ∧
     isFuelStationLocation shopTripEx.end_location = false) ∧
    ((calculateProjectTotals 500 none [] ([] ++ [shopTripEx]) [sessionEx] [] 1).time_minutes
       = (calculateProjectTotals 500 none [] [] [sessionEx] [] 1).time_minutes
         + shareTerm (shoppingProjects [sessionEx]) 1 shopTripEx.duration_minutes ∧
     (calculateProjectTotals 500 none [] ([] ++ [shopTripEx]) [sessionEx] [] 1).distance_km
       = (calculateProjectTotals 500 none [] [] [sessionEx] [] 1).distance_km
         + shareTerm (shoppingProjects [sessionEx]) 1 shopTripEx.distance_km ∧
     (calculateProjectTotals 500 none [] ([] ++ [shopTripEx]) [sessionEx] []
         1).fuel_consumed_liters
       = (calculateProjectTotals 500 none [] [] [sessionEx] [] 1).fuel_consumed_liters
         + shareTerm (shoppingProjects [sessionEx]) 1
             (tripFuelConsumed none shopTripEx.distance_km)) :=
  ⟨⟨by decide, by decide, by decide, by decide⟩,
    shop_trip_contribution 500 none [] [] [sessionEx] [] shopTripEx 1
      (by decide) (by decide) (by decide) (by decide)⟩

/-- Claim C2: within one work day, the pool that splits an unattributed
home/warehouse trip is the union of the projects of activities,
directly-attributed trips and shopping sessions (idle-time projects are not
included), while the pool that splits an unattributed fuel-station trip is
that same union plus the idle-time project sets; each such trip's minutes,
distance and fuel are divided by the size of its respective pool. -/
theorem shared_trip_pool_selection (pph : ℚ) (veh : Option VehicleConfig)
    (activities : List Activity) (trips : List Trip)
    (sessions : List ShoppingSession) (idle_times : List IdleTime) (p : Nat) :
    (calculateProjectTotals pph veh activities trips sessions idle_times p).time_minutes =
      directActivityTime activities p + directTripTime trips p
      + shareTerm (shoppingProjects sessions) p (sumDuration (trips.filter isShopTrip))
      + shareTerm
          (activityProjects activities ∪ directTripProjects trips ∪
            shoppingProjects sessions) p
          (sumDuration (trips.filter isHomeWarehouseTrip))
      + shareTerm
          (activityProjects activities ∪ directTripProjects trips ∪
            shoppingProjects sessions ∪ idleProjects idle_times) p
          (sumDuration (trips.filter isFuelStationTrip))
      + idleTimeShare idle_times p ∧
    (calculateProjectTotals pph veh activities trips sessions idle_times p).distance_km =
      directTripDistance trips p
      + shareTerm (shoppingProjects sessions) p (sumDistance (trips.filter isShopTrip))
      + shareTerm
          (activityProjects activities ∪ directTripProjects trips ∪
            shoppingProjects sessions) p
          (sumDistance (trips.filter isHomeWarehouseTrip))
      + shareTerm
          (activityProjects activities ∪ directTripProjects trips ∪
            shoppingProjects sessions ∪ idleProjects idle_times) p
          (sumDistance (trips.filter isFuelStationTrip)) ∧
    (calculateProjectTotals pph veh activities trips sessions idle_times p).fuel_consumed_liters =
      directTripFuel veh trips p
      + shareTerm (shoppingProjects sessions) p (sumTripFuel veh (trips.filter isShopTrip))
      + shareTerm
          (activityProjects activities ∪ directTripProjects trips ∪
            shoppingProjects sessions) p
          (sumTripFuel veh (trips.filter isHomeWarehouseTrip))
      + shareTerm
          (activityProjects activities ∪ directTripProjects trips ∪
            shoppingProjects sessions ∪ idleProjects idle_times) p
          (sumTripFuel veh (trips.filter isFuelStationTrip)) :=
  ⟨calcTotals_time pph veh activities trips sessions idle_times p,
   calcTotals_dist pph veh activities trips sessions idle_times p,
   calcTotals_fuel pph veh activities trips sessions idle_times p⟩

/-- Counterexample to claim C8 as stated: in the specification's own scenario
(activity 60 min on project 1, unattributed 10 km shop trip, shopping session
over projects 1 and 2), project 1's allocated distance is 5 km although the
sum over its directly-assigned trips is 0 km. -/
theorem direct_distance_only_counterexample :
    (calculateProjectTotals 500 none [activityEx] [shopTripEx] [sessionEx] [] 1).distance_km
      = 5 ∧
    directTripDistance [shopTripEx] 1 = 0 ∧ ((5 : ℚ) ≠ 0) := by
  refine ⟨?_, ?_, by norm_num⟩
  · rw [calcTotals_dist]
    have hshop : isShopTrip shopTripEx = true := by decide
    have hhw : isHomeWarehouseTrip shopTripEx = false := by decide
    have hfs : isFuelStationTrip shopTripEx = false := by decide
    have hset : shoppingProjects [sessionEx] = {1, 2} := by decide
    have hassigned : tripAssignedTo shopTripEx 1 = false := by decide
    have h1 : directTripDistance [shopTripEx] 1 = 0 := by
      simp [directTripDistance, sumDistance, List.filter_cons, hassigned]
    have h2 : ([shopTripEx].filter isShopTrip) = [shopTripEx] := by
      simp [List.filter_cons, hshop]
    have h3 : ([shopTripEx].filter isHomeWarehouseTrip) = [] := by
      simp [List.filter_cons, hhw]
    have h4 : ([shopTripEx].filter isFuelStationTrip) = [] := by
      simp [List.filter_cons, hfs]
    rw [h1, h2, h3, h4, hset]
    have h5 : sumDistance [shopTripEx] = 10 := by
      simp [sumDistance, shopTripEx]
    have h6 : sumDistance ([] : List Trip) = 0 := by simp [sumDistance]
    rw [h5, h6]
    simp [shareTerm]
    norm_num
  · simp [directTripDistance, sumDistance, List.filter_cons,
      (by decide : tripAssignedTo shopTripEx 1 = false)]

/-- Claim C8 (amended): a project's allocated `distance_km` equals the sum of
the distances of the trips directly assigned to it, plus its even `1/N` shares
of the unattributed shop, home/warehouse and fuel-station trips whose pools
contain it. -/
theorem allocation_distance_decomposition (pph : ℚ) (veh : Option VehicleConfig)
    (activities : List Activity) (trips : List Trip)
    (sessions : List ShoppingSession) (idle_times : List IdleTime) (p : Nat) :
    (calculateProjectTotals pph veh activities trips sessions idle_times p).distance_km =
      directTripDistance trips p
      + shareTerm (shoppingProjects sessions) p (sumDistance (trips.filter isShopTrip))
      + shareTerm (activeProjects activities trips sessions) p
          (sumDistance (trips.filter isHomeWarehouseTrip))
      + shareTerm (allAvailableProjects activities trips sessions idle_times) p
          (sumDistance (trips.filter isFuelStationTrip)) :=
  calcTotals_dist pph veh activities trips sessions idle_times p

/-! ## Destination resolver (src/bot.py:1064-1247)

Free-text matching works on strings modelled as `List Char`.  The similarity
battery of `comprehensive_similarity` (src/bot.py:1109-1218) is embedded
below; `SequenceMatcher.ratio` from Python's standard difflib (an external
library the source calls as `similarity`) is embedded as the recursive
longest-matching-block total, with no junk heuristic — the autojunk rule only
affects strings of 200 characters or more, which the resolver never sees. -/

/-- Python `str.lower` restricted to the alphabet the bot handles:
ASCII letters and the Cyrillic block (including the historic Ё/Ґ rows). -/
def pyLower (c : Char) : Char :=
  if 'A' ≤ c ∧ c ≤ 'Z' then Char.ofNat (c.toNat + 32)
  else if 0x410 ≤ c.toNat ∧ c.toNat ≤ 0x42F then Char.ofNat (c.toNat + 0x20)
  else if 0x400 ≤ c.toNat ∧ c.toNat ≤ 0x40F then Char.ofNat (c.toNat + 0x50)
  else if c.toNat = 0x490 then Char.ofNat 0x491
  else c

/-- Python regex `\w` over the modelled alphabet: ASCII alphanumerics,
underscore, and the Cyrillic block. -/
def isWordChar (c : Char) : Bool :=
  c.isAlphanum || c == '_' || (0x400 ≤ c.toNat && c.toNat ≤ 0x4FF)

/-- Python regex `\s` (the whitespace the bot can receive). -/
def isSpaceChar (c : Char) : Bool :=
  c == ' ' || c == '\t' || c == '\n' || c == '\r'

/-- Collapse runs of whitespace into single spaces
(`re.sub(r'\s+', ' ', text)`). -/
def collapseWs : List Char → List Char
  | [] => []
  | [c] => if isSpaceChar c then [' '] else [c]
  | a :: b :: rest =>
    if isSpaceChar a && isSpaceChar b then collapseWs (b :: rest)
    else (if isSpaceChar a then ' ' else a) :: collapseWs (b :: rest)

/-- Python `str.strip`. -/
def pyStrip (s : List Char) : List Char :=
  ((s.dropWhile isSpaceChar).reverse.dropWhile isSpaceChar).reverse

/-- `normalize_text` (src/bot.py:1070-1077): lowercase, replace punctuation
by spaces, collapse whitespace, strip. -/
def normalizeText (s : List Char) : List Char :=
  pyStrip (collapseWs ((s.map pyLower).map
    (fun c => if isWordChar c || isSpaceChar c then c else ' ')))

/-- The character table of `transliterate_ua_to_en` (src/bot.py:1079-1091). -/
def uaToEnChar : Char → List Char
  | 'а' => ['a'] | 'б' => ['b'] | 'в' => ['v'] | 'г' => ['g'] | 'ґ' => ['g']
  | 'д' => ['d'] | 'е' => ['e'] | 'є' => ['e'] | 'ж' => ['z', 'h'] | 'з' => ['z']
  | 'и' => ['y'] | 'і' => ['i'] | 'ї' => ['i'] | 'й' => ['y'] | 'к' => ['k']
  | 'л' => ['l'] | 'м' => ['m'] | 'н' => ['n'] | 'о' => ['o'] | 'п' => ['p']
  | 'р' => ['r'] | 'с' => ['s'] | 'т' => ['t'] | 'у' => ['u'] | 'ф' => ['f']
  | 'х' => ['h'] | 'ц' => ['c'] | 'ч' => ['c', 'h'] | 'ш' => ['s', 'h']
  | 'щ' => ['s', 'c', 'h'] | 'ь' => [] | 'ю' => ['y', 'u'] | 'я' => ['y', 'a']
  | 'ё' => ['y', 'o'] | 'ъ' => []
  | c => [c]

/-- `transliterate_ua_to_en` lowercases and maps each character. -/
def transliterate_ua_to_en (s : List Char) : List Char :=
  ((s.map pyLower).map uaToEnChar).join

/-- The character table of `transliterate_en_to_ua` (src/bot.py:1093-1104). -/
def enToUaChar : Char → List Char
  | 'a' => ['а'] | 'b' => ['б'] | 'c' => ['ц'] | 'd' => ['д'] | 'e' => ['е']
  | 'f' => ['ф'] | 'g' => ['г'] | 'h' => ['х'] | 'i' => ['і'] | 'j' => ['й']
  | 'k' => ['к'] | 'l' => ['л'] | 'm' => ['м'] | 'n' => ['н'] | 'o' => ['о']
  | 'p' => ['п'] | 'q' => ['к'] | 'r' => ['р'] | 's' => ['с'] | 't' => ['т']
  | 'u' => ['у'] | 'v' => ['в'] | 'w' => ['в'] | 'x' => ['к', 'с'] | 'y' => ['і']
  | 'z' => ['з']
  | c => [c]

/-- `transliterate_en_to_ua` lowercases and maps each character. -/
def transliterate_en_to_ua (s : List Char) : List Char :=
  ((s.map pyLower).map enToUaChar).join

/-- Accumulating splitter behind `splitWords`. -/
def splitWordsAux : List Char → List Char → List (List Char)
  | [], cur => if cur = [] then [] else [cur.reverse]
  | c :: rest, cur =>
    if c = ' ' then
      if cur = [] then splitWordsAux rest [] else cur.reverse :: splitWordsAux rest []
    else splitWordsAux rest (c :: cur)

/-- Python `str.split()` on a normalized string: split on spaces, drop
empty tokens. -/
def splitWords (s : List Char) : List (List Char) := splitWordsAux s []

/-- Python `str.endswith`. -/
def isSuffixB (needle hay : List Char) : Bool := isPrefixB needle.reverse hay.reverse

/-- Occurrence positions of character `c` within `b[blo:bhi]`, ascending —
difflib's `b2j` lookup restricted to the current window. -/
def b2jIndices (b : List Char) (c : Char) (blo bhi : Nat) : List Nat :=
  (List.range b.length).filter (fun j => decide (blo ≤ j ∧ j < bhi ∧ b.getD j ' ' = c))

/-- One row (fixed `i`) of difflib's `find_longest_match` dynamic program.
`oldmap` holds the previous row's run lengths, keyed at `j + 1` so that the
lookup for column `j` reads the length of the run ending at `(i-1, j-1)`. -/
def flmRow (b : List Char) (blo bhi : Nat) (c : Char) (i : Nat)
    (oldmap : Nat → Nat) (best : Nat × Nat × Nat) : (Nat → Nat) × (Nat × Nat × Nat) :=
  (b2jIndices b c blo bhi).foldl
    (fun st j =>
      let k := oldmap j + 1
      let newmap := fun x => if x = j + 1 then k else st.1 x
      let best' := if k > st.2.2.2 then (i + 1 - k, j + 1 - k, k) else st.2
      (newmap, best'))
    ((fun _ => 0), best)

/-- difflib's `find_longest_match` on `a[alo:ahi]` and `b[blo:bhi]` with no
junk: the earliest longest matching block `(i, j, size)`. -/
def findLongestMatch (a b : List Char) (alo ahi blo bhi : Nat) : Nat × Nat × Nat :=
  (((List.range ahi).drop alo).foldl
    (fun st i => flmRow b blo bhi (a.getD i ' ') i st.1 st.2)
    ((fun _ => 0), (alo, blo, 0))).2

/-- Total size of difflib's matching blocks, by the same recursive splitting
as `get_matching_blocks`; `fuel` bounds the recursion depth (interval lengths
shrink strictly, so `|a| + |b| + 1` always suffices). -/
def matchTotalAux (a b : List Char) : Nat → Nat → Nat → Nat → Nat → Nat
  | 0, _, _, _, _ => 0
  | fuel + 1, alo, ahi, blo, bhi =>
    let r := findLongestMatch a b alo ahi blo bhi
    if r.2.2 = 0 then 0
    else
      r.2.2 + matchTotalAux a b fuel alo r.1 blo r.2.1
        + matchTotalAux a b fuel (r.1 + r.2.2) ahi (r.2.1 + r.2.2) bhi

/-- difflib's `SequenceMatcher(None, a, b).ratio()`:
`2 * M / (len(a) + len(b))`, and 1 for two empty strings. -/
def ratioOf (a b : List Char) : ℚ :=
  if a.length + b.length = 0 then 1
  else 2 * (matchTotalAux a b (a.length + b.length + 1) 0 a.length 0 b.length : ℚ) /
    ((a.length : ℚ) + (b.length : ℚ))

/-- The `similarity` helper of `_find_similar_objects` (src/bot.py:1106-1107). -/
def similarity (a b : List Char) : ℚ := ratioOf a b

/-- The partial-containment / word-similarity bands of the word loop
(src/bot.py:1149-1175). -/
def partialMatchScores (uv w : List Char) : List ℚ :=
  if 3 ≤ uv.length ∧ 3 ≤ w.length then
    if containsSeq uv w then
      let coverage : ℚ := (uv.length : ℚ) / (w.length : ℚ)
      if 1/2 ≤ coverage then [17/20 + coverage * (1/10)] else [7/10 + coverage * (3/20)]
    else if containsSeq w uv then
      let coverage : ℚ := (w.length : ℚ) / (uv.length : ℚ)
      if 1/2 ≤ coverage then [4/5 + coverage * (1/10)] else [3/5 + coverage * (1/5)]
    else
      let ws := similarity uv w
      if 7/10 ≤ ws then [7/10 + ws * (1/4)]
      else if 1/2 ≤ ws then [1/2 + ws * (3/10)]
      else []
  else []

/-- The prefix/suffix bands of the word loop (src/bot.py:1177-1195). -/
def edgeMatchScores (uv w : List Char) : List ℚ :=
  if 3 ≤ uv.length ∧ 3 ≤ w.length then
    if isPrefixB w uv || isPrefixB uv w then
      let coverage : ℚ := ((min uv.length w.length : Nat) : ℚ) /
        ((max uv.length w.length : Nat) : ℚ)
      if 3/5 ≤ coverage then [3/4 + coverage * (1/5)] else []
    else if isSuffixB w uv || isSuffixB uv w then
      let coverage : ℚ := ((min uv.length w.length : Nat) : ℚ) /
        ((max uv.length w.length : Nat) : ℚ)
      if 3/5 ≤ coverage then [7/10 + coverage * (1/5)] else []
    else []
  else []

/-- The exact whole-word matches of one user variant (src/bot.py:1138-1144). -/
def exactWordScores (uv : List Char) (obj_words w_en w_ua : List (List Char)) : List ℚ :=
  (if obj_words.contains uv then [(19 : ℚ)/20] else [])
  ++ (if w_en.contains uv then [(19 : ℚ)/20] else [])
  ++ (if w_ua.contains uv then [(19 : ℚ)/20] else [])

/-- All scores one user variant collects from the word loops
(src/bot.py:1137-1195). -/
def variantScores (uv : List Char) (obj_words w_en w_ua : List (List Char)) : List ℚ :=
  exactWordScores uv obj_words w_en w_ua
  ++ ([obj_words, w_en, w_ua].map (fun wl =>
      (wl.map (fun w => partialMatchScores uv w)).join)).join
  ++ ([obj_words, w_en, w_ua].map (fun wl =>
      (wl.map (fun w => edgeMatchScores uv w)).join)).join

/-- Python `max(scores) if scores else 0` (src/bot.py:1218). -/
def pymax : List ℚ → ℚ
  | [] => 0
  | x :: xs => xs.foldl max x

/-- The full score battery of `comprehensive_similarity` (src/bot.py:1109-1218)
before taking the maximum: the temporary debug checks, the word loops for the
three user variants, the discounted whole-string ratios, and the flat
substring scores. -/
def scoresList (user_text obj_name : List Char) : List ℚ :=
  let norm_user := normalizeText user_text
  let norm_obj := normalizeText obj_name
  let translit_user_en := transliterate_ua_to_en norm_user
  let translit_user_ua := transliterate_en_to_ua norm_user
  let translit_obj_en := transliterate_ua_to_en norm_obj
  let translit_obj_ua := transliterate_en_to_ua norm_obj
  let obj_words := splitWords norm_obj
  let translit_obj_words_en := splitWords translit_obj_en
  let translit_obj_words_ua := splitWords translit_obj_ua
  ((if containsSeq "бориспіль".toList norm_obj && containsSeq "борис".toList norm_user
      then [(9 : ℚ)/10] else [])
    ++ (if containsSeq "борис".toList norm_obj && containsSeq "борис".toList norm_user
      then [(9 : ℚ)/10] else []))
  ++ (([norm_user, translit_user_en, translit_user_ua].map (fun uv =>
      variantScores uv obj_words translit_obj_words_en translit_obj_words_ua)).join)
  ++ [similarity norm_user norm_obj * (3/5),
      similarity translit_user_en norm_obj * (3/5),
      similarity translit_user_ua norm_obj * (3/5),
      similarity norm_user translit_obj_en * (3/5),
      similarity norm_user translit_obj_ua * (3/5)]
  ++ (if 3 ≤ norm_user.length then
      (if containsSeq norm_user norm_obj then [(4 : ℚ)/5] else [])
      ++ (if containsSeq translit_user_en norm_obj then [(4 : ℚ)/5] else [])
      ++ (if containsSeq translit_user_ua norm_obj then [(4 : ℚ)/5] else [])
      ++ (if containsSeq norm_user translit_obj_en then [(4 : ℚ)/5] else [])
      ++ (if containsSeq norm_user translit_obj_ua then [(4 : ℚ)/5] else [])
    else [])

/-- `comprehensive_similarity` (src/bot.py:1109-1218): the maximum of the
score battery, 0 when it is empty. -/
def comprehensive_similarity (user_text obj_name : List Char) : ℚ :=
  pymax (scoresList user_text obj_name)

/-- `foldl max` never goes below its initial value. -/
theorem le_foldl_max_init (xs : List ℚ) : ∀ x : ℚ, x ≤ xs.foldl max x := by
  induction xs with
  | nil => intro x; exact le_refl x
  | cons y ys ih => intro x; exact le_trans (le_max_left x y) (ih (max x y))

/-- `foldl max` dominates every list element. -/
theorem le_foldl_max_mem (xs : List ℚ) : ∀ (x a : ℚ), a ∈ xs → a ≤ xs.foldl max x := by
  induction xs with
  | nil => intro x a h; cases h
  | cons y ys ih =>
    intro x a h
    rw [List.foldl_cons]
    rcases List.mem_cons.mp h with rfl | h2
    · exact le_trans (le_max_right x a) (le_foldl_max_init ys (max x a))
    · exact ih (max x y) a h2

/-- Every score in the battery bounds `pymax` from below. -/
theorem le_pymax_of_mem {a : ℚ} {l : List ℚ} (h : a ∈ l) : a ≤ pymax l := by
  cases l with
  | nil => cases h
  | cons x xs =>
    rcases List.mem_cons.mp h with rfl | h2
    · exact le_foldl_max_init xs a
    · exact le_foldl_max_mem xs x a h2

/-- `foldl max` stays below any strict upper bound of the seed and elements. -/
theorem foldl_max_lt (xs : List ℚ) : ∀ x c : ℚ, x < c → (∀ a ∈ xs, a < c) →
    xs.foldl max x < c := by
  induction xs with
  | nil =>
    intro x c hx _
    simpa using hx
  | cons y ys ih =>
    intro x c hx h
    rw [List.foldl_cons]
    exact ih (max x y) c (max_lt hx (h y (List.mem_cons_self y ys)))
      (fun a ha => h a (List.mem_cons_of_mem y ha))

/-- `pymax` stays below any positive strict upper bound of all elements. -/
theorem pymax_lt_of_forall {l : List ℚ} {c : ℚ} (hc : 0 < c) (h : ∀ a ∈ l, a < c) :
    pymax l < c := by
  cases l with
  | nil => simpa [pymax] using hc
  | cons x xs =>
    exact foldl_max_lt xs x c (h x (List.mem_cons_self x xs))
      (fun a ha => h a (List.mem_cons_of_mem x ha))

/-- On a space-free string the splitter returns the pending word glued to the
rest, if anything. -/
theorem splitWordsAux_no_space :
    ∀ s : List Char, ' ' ∉ s → ∀ cur : List Char,
      splitWordsAux s cur =
        if cur.reverse ++ s = [] then [] else [cur.reverse ++ s] := by
  intro s
  induction s with
  | nil =>
    intro _ cur
    by_cases hc : cur = []
    · simp [splitWordsAux, hc]
    · have hr : cur.reverse ≠ [] := by simpa using hc
      simp [splitWordsAux, hc, hr]
  | cons c rest ih =>
    intro h cur
    have hc : ¬ c = ' ' := fun hh => h (by rw [← hh]; exact List.mem_cons_self c rest)
    have hrest : ' ' ∉ rest := fun hh => h (List.mem_cons_of_mem c hh)
    rw [splitWordsAux, if_neg hc, ih hrest (c :: cur)]
    simp [List.reverse_cons, List.append_assoc]

/-- Python `str.split()` of a non-empty space-free string is that one word. -/
theorem splitWords_single (s : List Char) (h1 : s ≠ []) (h2 : ' ' ∉ s) :
    splitWords s = [s] := by
  unfold splitWords
  rw [splitWordsAux_no_space s h2 []]
  simp [h1]

/-- Claim C9 (amended): for a non-empty already-normalized input containing no
whitespace (a single word), the resolver's self-similarity is at least 0.95:
the input is one of the candidate's word tokens, so the exact-word rule fires. -/
theorem self_similarity_single_word (x : List Char) (h1 : x ≠ [])
    (h2 : normalizeText x = x) (h3 : ' ' ∉ x) :
    19/20 ≤ comprehensive_similarity x x := by
  unfold comprehensive_similarity
  apply le_pymax_of_mem
  simp only [scoresList]
  rw [h2]
  apply List.mem_append_left
  apply List.mem_append_left
  apply List.mem_append_right
  apply List.mem_join.mpr
  refine ⟨variantScores x (splitWords x) (splitWords (transliterate_ua_to_en x))
    (splitWords (transliterate_en_to_ua x)), ?_, ?_⟩
  · exact List.mem_map_of_mem _ (List.mem_cons_self x _)
  · unfold variantScores
    apply List.mem_append_left
    apply List.mem_append_left
    unfold exactWordScores
    rw [splitWords_single x h1 h3]
    have hcont : (([x] : List (List Char)).contains x) = true := by simp
    rw [hcont]
    apply List.mem_append_left
    apply List.mem_append_left
    simp

/-- Witness for the amended C9 at the single word `abc`. -/
theorem self_similarity_single_word_witness :
    ("abc".toList ≠ [] ∧ normalizeText "abc".toList = "abc".toList ∧
      ' ' ∉ "abc".toList) ∧
    19/20 ≤ comprehensive_similarity "abc".toList "abc".toList :=
  ⟨⟨by decide, by decide, by decide⟩,
    self_similarity_single_word "abc".toList (by decide) (by decide) (by decide)⟩

/-- Counterexample to claim C9 as stated: the two-word normalized string
`ab cd` scores only 0.8 against itself — the exact-word rule needs the whole
input to be a single token, the word loops skip all the two-letter tokens, the
whole-string ratios are discounted to at most 0.6, and the flat substring rule
gives 0.8. -/
theorem self_similarity_counterexample :
    normalizeText "ab cd".toList = "ab cd".toList ∧ "ab cd".toList ≠ [] ∧
    comprehensive_similarity "ab cd".toList "ab cd".toList < 19/20 := by
  refine ⟨by decide, by decide, ?_⟩
  have hs : scoresList "ab cd".toList "ab cd".toList =
      [similarity ['a', 'b', ' ', 'c', 'd'] ['a', 'b', ' ', 'c', 'd'] * (3/5),
       similarity ['a', 'b', ' ', 'c', 'd'] ['a', 'b', ' ', 'c', 'd'] * (3/5),
       similarity ['а', 'б', ' ', 'ц', 'д'] ['a', 'b', ' ', 'c', 'd'] * (3/5),
       similarity ['a', 'b', ' ', 'c', 'd'] ['a', 'b', ' ', 'c', 'd'] * (3/5),
       similarity ['a', 'b', ' ', 'c', 'd'] ['а', 'б', ' ', 'ц', 'д'] * (3/5),
       (4 : ℚ)/5, (4 : ℚ)/5, (4 : ℚ)/5] := by rfl
  have hsim1 : similarity ['a', 'b', ' ', 'c', 'd'] ['a', 'b', ' ', 'c', 'd'] = 1 := by
    have hl : (['a', 'b', ' ', 'c', 'd'] : List Char).length = 5 := by decide
    have hm : matchTotalAux ['a', 'b', ' ', 'c', 'd'] ['a', 'b', ' ', 'c', 'd']
        11 0 5 0 5 = 5 := by decide
    rw [similarity, ratioOf, hl]
    norm_num [hm]
  have hsim2 : similarity ['а', 'б', ' ', 'ц', 'д'] ['a', 'b', ' ', 'c', 'd'] = 1/5 := by
    have hl1 : (['а', 'б', ' ', 'ц', 'д'] : List Char).length = 5 := by decide
    have hl2 : (['a', 'b', ' ', 'c', 'd'] : List Char).length = 5 := by decide
    have hm : matchTotalAux ['а', 'б', ' ', 'ц', 'д'] ['a', 'b', ' ', 'c', 'd']
        11 0 5 0 5 = 1 := by decide
    rw [similarity, ratioOf, hl1, hl2]
    norm_num [hm]
  have hsim3 : similarity ['a', 'b', ' ', 'c', 'd'] ['а', 'б', ' ', 'ц', 'д'] = 1/5 := by
    have hl1 : (['a', 'b', ' ', 'c', 'd'] : List Char).length = 5 := by decide
    have hl2 : (['а', 'б', ' ', 'ц', 'д'] : List Char).length = 5 := by decide
    have hm : matchTotalAux ['a', 'b', ' ', 'c', 'd'] ['а', 'б', ' ', 'ц', 'д']
        11 0 5 0 5 = 1 := by decide
    rw [similarity, ratioOf, hl1, hl2]
    norm_num [hm]
  unfold comprehensive_similarity
  rw [hs]
  apply pymax_lt_of_forall (by norm_num)
  intro a ha
  simp only [List.mem_cons, List.not_mem_nil, or_false] at ha
  rcases ha with rfl | rfl | rfl | rfl | rfl | rfl | rfl | rfl <;>
    norm_num [hsim1, hsim2, hsim3]
